import Mathlib

/-!
Verification development for the AI-Resume-Checker-Customizer repository.

The repository's computational core (the rule-based ATS scorer, the job
matcher and the aggregator of `nlp/ats_scorer.py`, `nlp/job_matcher.py` and
`backend/main.py`) is documented in `src/Componenets/Resume/WARP.md` and in
the README (`src/unnamed/part_004`), and is invoked by the frontend
(`src/unnamed/part_003`, `src/Pages/Home.tsx`), but its own source files are
not part of `src/`.  Definitions below that embed those missing functions
are marked `Modelled from the spec:` and follow the specification's wording
(sections 3, 4 and 7 of the design document).  All other definitions are
translated directly from files under `src/`.
-/

namespace ResumeCheck

/-- Weight table of the five ATS sub-scores.  The canonical table is the one
of `src/Componenets/Resume/WARP.md` lines 82-87: formatting 25%, keywords
30%, structure 20%, content 15%, readability 10%. -/
structure WeightTable where
  formatting : ℚ
  keywords : ℚ
  sectionStructure : ℚ
  contentQuality : ℚ
  readability : ℚ
deriving DecidableEq

/-- The documentation weight table (WARP.md, "ATS Scorer" component). -/
def docWeights : WeightTable :=
  { formatting := 25/100
    keywords := 30/100
    sectionStructure := 20/100
    contentQuality := 15/100
    readability := 10/100 }

/-- Weight table stated by the master prompt of `src/Pages/Home.tsx`
(lines 110-116): keywords 40%, formatting 20%, impact metrics 20%,
readability 10%, risk penalties 10%. -/
structure PromptWeightTable where
  keywords : ℚ
  formatting : ℚ
  impactMetrics : ℚ
  readability : ℚ
  riskPenalties : ℚ
deriving DecidableEq

/-- The prompt weight table of `src/Pages/Home.tsx`. -/
def promptWeights : PromptWeightTable :=
  { keywords := 40/100
    formatting := 20/100
    impactMetrics := 20/100
    readability := 10/100
    riskPenalties := 10/100 }

/-- The five named sub-scores of the ATS scorer (spec section 3,
`ScoreBreakdown`; field names follow the `score_breakdown` object of the
README's `POST /api/analyze` response). -/
structure ScoreBreakdown where
  formatting : ℚ
  keywords : ℚ
  sectionStructure : ℚ
  contentQuality : ℚ
  readability : ℚ
deriving DecidableEq

/-- Sub-scores of the scorer described by the Home.tsx master prompt. -/
structure PromptBreakdown where
  keywords : ℚ
  formatting : ℚ
  impactMetrics : ℚ
  readability : ℚ
  riskPenalties : ℚ
deriving DecidableEq

/-- Clamp a raw score into the interval [0, 100] (spec section 4.1). -/
def clampScore (x : ℚ) : ℚ := max 0 (min 100 x)

/-- Round to one decimal place (spec section 4.1: "round to one decimal"). -/
def round1 (x : ℚ) : ℚ := ((round (10 * x) : ℤ) : ℚ) / 10

/-- Weighted sum of the five sub-scores against a weight table. -/
def weightedSum (w : WeightTable) (b : ScoreBreakdown) : ℚ :=
  w.formatting * b.formatting + w.keywords * b.keywords +
    w.sectionStructure * b.sectionStructure +
    w.contentQuality * b.contentQuality + w.readability * b.readability

/-- Modelled from the spec: overall ATS score of `nlp/ats_scorer.py` (not in
`src/`).  Spec section 4.1: "Overall score = Σ(sub-score × weight); clamp to
[0,100]; round to one decimal", with the canonical WARP.md weight table. -/
def overallScore (b : ScoreBreakdown) : ℚ :=
  round1 (clampScore (weightedSum docWeights b))

/-- Weighted sum for the prompt-described scorer of `src/Pages/Home.tsx`. -/
def promptWeightedSum (b : PromptBreakdown) : ℚ :=
  promptWeights.keywords * b.keywords + promptWeights.formatting * b.formatting +
    promptWeights.impactMetrics * b.impactMetrics +
    promptWeights.readability * b.readability +
    promptWeights.riskPenalties * b.riskPenalties

/-- Modelled from the spec: overall score of the scorer described by the
master prompt of `src/Pages/Home.tsx` (same clamp-and-round shape as
section 4.1, prompt weight table). -/
def promptOverallScore (b : PromptBreakdown) : ℚ :=
  round1 (clampScore (promptWeightedSum b))

/-- One experience entry of an extracted resume (spec section 3: title,
organization, date span rendered as a year count, bullet list). -/
structure ExperienceEntry where
  title : String
  organization : String
  years : ℚ
  bullets : List String
deriving DecidableEq

/-- Modelled from the spec: `ExtractedResume` of spec section 3, the
validated output of the external Feature Extractor consumed by the core
(the extractor itself is out of scope).  Skills are normalized names,
education is a discrete level (0 none, 1 certificate, 2 bachelor, 3 master,
4 doctorate), and the four formatting flags are the detected ATS hazards. -/
structure ExtractedResume where
  email : Option String
  phone : Option String
  skills : List String
  sections : List String
  experience : List ExperienceEntry
  educationLevel : Nat
  rawTextLength : Nat
  hasTables : Bool
  hasImages : Bool
  hasUnusualFonts : Bool
  hasMultiColumn : Bool
deriving DecidableEq

/-- One required skill of a job description, tagged with its category and
with its importance tier (spec section 3, glossary). -/
structure SkillReq where
  name : String
  category : String
  mustHave : Bool
deriving DecidableEq

/-- Modelled from the spec: `JobRequirements` of spec section 3.  The
free-text embedding vector is a black-box extractor product; the matcher
only consumes the cosine similarity it induces, carried here in [-1, 1]. -/
structure JobRequirements where
  skills : List SkillReq
  minYears : Option ℚ
  requiredEducation : Option Nat
  semanticSimilarity : ℚ
deriving DecidableEq

/-- Checked rational division: `none` signals the numeric fault that spec
section 7 requires the sub-score computations never to reach. -/
def checkedDiv (a b : ℚ) : Option ℚ := if b = 0 then none else some (a / b)

/-- Modelled from the spec: guarded percentage used by every ratio-shaped
sub-score.  Spec section 7: a zero denominator is special-cased to "100 if
nothing was required, 0 if something was required but the denominator is
degenerate" instead of propagating a numeric fault. -/
def guardedPct (denom num : ℚ) (somethingRequired : Bool) : ℚ :=
  if denom = 0 then (if somethingRequired then 0 else 100) else num / denom * 100

/-- Fault-tracking variant of `guardedPct`: the `.error` branch is the
numeric fault that the guard of spec section 7 must make unreachable. -/
def guardedPctE (denom num : ℚ) (somethingRequired : Bool) : Except String ℚ :=
  if denom = 0 then .ok (if somethingRequired then 0 else 100)
  else
    match checkedDiv num denom with
    | some q => .ok (q * 100)
    | none => .error "division by zero"

/-- Modelled from the spec: formatting sub-score (spec section 4.1).  Each
detected issue (tables, images, unusual fonts, multi-column layout)
subtracts a fixed penalty of 25 from 100, floored at 0. -/
def formattingScore (r : ExtractedResume) : ℚ :=
  let issues : ℚ :=
    (if r.hasTables then 1 else 0) + (if r.hasImages then 1 else 0) +
      (if r.hasUnusualFonts then 1 else 0) + (if r.hasMultiColumn then 1 else 0)
  max 0 (100 - 25 * issues)

/-- The five expected resume sections of spec section 4.1. -/
def expectedSections : List String :=
  ["contact", "summary", "experience", "education", "skills"]

/-- Modelled from the spec: structure sub-score (spec section 4.1),
the fraction of expected sections present, scaled to 100. -/
def structureScore (r : ExtractedResume) : ℚ :=
  ((expectedSections.filter (fun s => r.sections.contains s)).length : ℚ) / 5 * 100

/-- Number of skills of `l` present in the resume skill list `rs`. -/
def countPresent (rs : List String) (l : List SkillReq) : ℚ :=
  ((l.filter (fun s => rs.contains s.name)).length : ℚ)

/-- Modelled from the spec: keyword sub-score (spec section 4.1).  With job
requirements, must-have coverage is blended with nice-to-have coverage at a
lower sub-weight (70%/30% here); each coverage ratio is guarded per spec
section 7.  Without a job description the score is the neutral baseline 70. -/
def keywordsScore (r : ExtractedResume) (job : Option JobRequirements) : ℚ :=
  match job with
  | none => 70
  | some j =>
    let must := j.skills.filter (fun s => s.mustHave)
    let nice := j.skills.filter (fun s => !s.mustHave)
    let mustCov := guardedPct (must.length : ℚ) (countPresent r.skills must) (!must.isEmpty)
    let niceCov := guardedPct (nice.length : ℚ) (countPresent r.skills nice) (!nice.isEmpty)
    7/10 * mustCov + 3/10 * niceCov

/-- All bullet lines of the resume's experience entries. -/
def bulletsOf (r : ExtractedResume) : List String :=
  (r.experience.map ExperienceEntry.bullets).flatten

/-- Fixed denylist of weak verbs (spec section 4.1). -/
def weakVerbs : List String := ["helped", "worked", "responsible", "assisted", "did"]

/-- A bullet is weak when it uses a word of the weak-verb denylist. -/
def isWeakBullet (b : String) : Bool :=
  (b.splitOn " ").any (fun w => weakVerbs.contains w)

/-- Word count of one bullet line. -/
def wordCount (s : String) : Nat := (s.splitOn " ").length

/-- Modelled from the spec: content-quality sub-score (spec section 4.1),
rewarding quantified bullets (digit-bearing) and penalizing weak verbs. -/
def contentQualityScore (r : ExtractedResume) : ℚ :=
  let bs := bulletsOf r
  if bs.isEmpty then 0
  else
    let quantified := ((bs.filter (fun b => b.any Char.isDigit)).length : ℚ)
    let weak := ((bs.filter isWeakBullet).length : ℚ)
    clampScore (quantified / (bs.length : ℚ) * 100 - 10 * weak)

/-- Modelled from the spec: readability sub-score (spec section 4.1), a
simple sentence-length heuristic mapped to 0-100 (15 words per bullet is
ideal). -/
def readabilityScore (r : ExtractedResume) : ℚ :=
  let bs := bulletsOf r
  if bs.isEmpty then 0
  else
    let avg : ℚ := ((bs.map wordCount).sum : ℚ) / (bs.length : ℚ)
    clampScore (100 - 3 * |avg - 15|)

/-- Modelled from the spec: `score` contract of spec section 4.1,
`score(resume) -> ScoreBreakdown` (the keyword sub-score consumes the
optional job requirements). -/
def score (r : ExtractedResume) (job : Option JobRequirements) : ScoreBreakdown :=
  { formatting := formattingScore r
    keywords := keywordsScore r job
    sectionStructure := structureScore r
    contentQuality := contentQualityScore r
    readability := readabilityScore r }

/-- Importance weight of a required skill (spec section 4.2: 1.5 for
must-have, 1.0 for nice-to-have). -/
def reqWeight (s : SkillReq) : ℚ := if s.mustHave then 3/2 else 1

/-- Modelled from the spec: skill-match score of the job matcher (spec
section 4.2), the weighted overlap between the resume skill set and the job
required-skill set (must-have weighted 1.5, nice-to-have 1.0), normalized
to 100, with the zero-denominator guard of spec section 7. -/
def skillMatchScore (rs : List String) (js : List SkillReq) : ℚ :=
  guardedPct ((js.map reqWeight).sum)
    (((js.filter (fun s => rs.contains s.name)).map reqWeight).sum)
    (!js.isEmpty)

/-- Total experience years of a resume (spec section 4.2: sum of the
non-overlapping date ranges, each entry already reduced to a year count). -/
def totalYears (r : ExtractedResume) : ℚ :=
  (r.experience.map ExperienceEntry.years).sum

/-- Modelled from the spec: experience-match score (spec section 4.2), full
credit when the resume meets the required years, linear partial credit down
to 0 at zero years. -/
def experienceMatchScore (r : ExtractedResume) (j : JobRequirements) : ℚ :=
  match j.minYears with
  | none => 100
  | some m => if m ≤ 0 then 100 else clampScore (totalYears r / m * 100)

/-- Modelled from the spec: education-match score (spec section 4.2), full
credit when the resume level meets the required level, fixed partial credit
below (one level below 60, two below 30, further 0). -/
def educationMatchScore (r : ExtractedResume) (j : JobRequirements) : ℚ :=
  match j.requiredEducation with
  | none => 100
  | some req =>
    if req ≤ r.educationLevel then 100
    else if req = r.educationLevel + 1 then 60
    else if req = r.educationLevel + 2 then 30
    else 0

/-- `MatchResult` of spec section 3: overall, skill, experience and
education match scores plus the missing skills tagged by category. -/
structure MatchResult where
  overallMatch : ℚ
  skillMatch : ℚ
  experienceMatch : ℚ
  educationMatch : ℚ
  missingSkills : List (String × String)
deriving DecidableEq

/-- Modelled from the spec: `match` contract of spec section 4.2.  The
semantic cosine similarity is rescaled from [-1,1] to [0,100] and blended
with the lexical skill overlap at the fixed 60%/40% blend. -/
def jobMatch (r : ExtractedResume) (j : JobRequirements) : MatchResult :=
  let sm := skillMatchScore r.skills j.skills
  let semantic := (j.semanticSimilarity + 1) / 2 * 100
  { overallMatch := 6/10 * semantic + 4/10 * sm
    skillMatch := sm
    experienceMatch := experienceMatchScore r j
    educationMatch := educationMatchScore r j
    missingSkills :=
      (j.skills.filter (fun s => s.mustHave && !r.skills.contains s.name)).map
        (fun s => (s.category, s.name)) }

/-- `AnalysisResponse` of spec section 3: score breakdown, optional match
result, issue list and recommendation list. -/
structure AnalysisResponse where
  breakdown : ScoreBreakdown
  jobMatchResult : Option MatchResult
  issues : List String
  recommendations : List String
deriving DecidableEq

/-- Modelled from the spec: `aggregate` contract of spec section 4.3, a pure
merge of the scorer and matcher outputs with no computation. -/
def aggregate (b : ScoreBreakdown) (issues recommendations : List String)
    (m : Option MatchResult) : AnalysisResponse :=
  { breakdown := b
    jobMatchResult := m
    issues := issues
    recommendations := recommendations }

/-- A JSON-like value, the serialization target of `AnalysisResponse`. -/
inductive JVal where
  | num : ℚ → JVal
  | str : String → JVal
  | bool : Bool → JVal
  | arr : List JVal → JVal
  | obj : List (String × JVal) → JVal

/-- ATS-friendliness rating attached to the overall score (thresholds of the
frontend `displayAnalysisResults` of `src/unnamed/part_003`: 85, 70, 55). -/
def atsRating (x : ℚ) : String :=
  if 85 ≤ x then "Excellent ATS Compatibility"
  else if 70 ≤ x then "Good ATS Compatibility"
  else if 55 ≤ x then "Fair ATS Compatibility"
  else "Poor ATS Compatibility"

/-- The `score_breakdown` object of the README's `POST /api/analyze`
response (`src/unnamed/part_004` lines 160-166). -/
def serializeBreakdown (b : ScoreBreakdown) : JVal :=
  .obj [("formatting", .num b.formatting),
        ("structure", .num b.sectionStructure),
        ("keywords", .num b.keywords),
        ("content_quality", .num b.contentQuality),
        ("readability", .num b.readability)]

/-- Serialized `job_match` object (match-related fields of the response). -/
def serializeMatch (m : MatchResult) : JVal :=
  .obj [("overall_match_score", .num m.overallMatch),
        ("skills_match", .num m.skillMatch),
        ("experience_match", .num m.experienceMatch),
        ("education_match", .num m.educationMatch),
        ("missing_skills",
          .arr (m.missingSkills.map
            (fun p => .obj [("category", .str p.1), ("skill", .str p.2)])))]

/-- Modelled from the spec: serialization of an `AnalysisResponse`, shaped
after the README's `POST /api/analyze` response (`src/unnamed/part_004`
lines 154-173).  Per spec section 4.3 the `job_match` key is emitted only
when a match result is present. -/
def serializeResponse (resp : AnalysisResponse) : List (String × JVal) :=
  [("success", .bool true),
   ("ats_score",
     .obj [("overall_score", .num (overallScore resp.breakdown)),
           ("ats_friendly_rating", .str (atsRating (overallScore resp.breakdown))),
           ("score_breakdown", serializeBreakdown resp.breakdown),
           ("issues_found", .arr (resp.issues.map .str)),
           ("recommendations", .arr (resp.recommendations.map .str))])] ++
    (match resp.jobMatchResult with
     | none => []
     | some m => [("job_match", serializeMatch m)])

mutual

/-- All object keys occurring anywhere inside a JSON value. -/
def jvalKeys : JVal → List String
  | .num _ => []
  | .str _ => []
  | .bool _ => []
  | .obj l => jvalKeysObj l
  | .arr l => jvalKeysArr l

/-- All object keys of a key-value list, outer keys included. -/
def jvalKeysObj : List (String × JVal) → List String
  | [] => []
  | (k, v) :: t => k :: (jvalKeys v ++ jvalKeysObj t)

/-- All object keys occurring inside the values of a list. -/
def jvalKeysArr : List JVal → List String
  | [] => []
  | v :: t => jvalKeys v ++ jvalKeysArr t

end

/-- Every key (at any nesting depth) of a serialized response. -/
def responseKeys (resp : AnalysisResponse) : List String :=
  jvalKeysObj (serializeResponse resp)

/-- The match-related keys of the serialized response. -/
def matchRelatedKeys : List String :=
  ["job_match", "overall_match_score", "skills_match", "experience_match",
   "education_match", "missing_skills"]

/-- Every field name of the `outputSchema` object of `src/Pages/Home.tsx`
lines 12-76 (identical names appear in the `ResumeAnalysis` entity schema of
`src/src/services/mockApi.ts`), in order of appearance. -/
def outputSchemaFieldNames : List String :=
  ["meta", "ats_score", "coverage", "must_have_keywords", "nice_to_have",
   "risks", "length_ok", "reading_level", "executiveSummary",
   "keywordMatrix", "jdSkill", "presentInResume", "evidenceSnippet",
   "action", "redFlags", "flag", "details", "fix", "resumeAtsPlain",
   "resumeMarkdown", "bulletUpgrades", "before", "after", "coverLetter",
   "linkedinProfile", "headline", "about"]

/-- A field name follows snake_case when it has no uppercase letter. -/
def isSnakeName (s : String) : Bool := s.data.all (fun c => !c.isUpper)

/-- A field name follows camelCase when it has no underscore. -/
def isCamelName (s : String) : Bool := s.data.all (fun c => c ≠ '_')

/-- A name list is internally consistent when it is uniformly snake_case or
uniformly camelCase (spec section 6). -/
def uniformNaming (l : List String) : Bool :=
  l.all isSnakeName || l.all isCamelName

/-- The whitespace predicate of the JavaScript string trim used by
`HeroSection` (`src/unnamed/part_000`). -/
def isWS (c : Char) : Bool := c = ' ' || c = '\t' || c = '\n' || c = '\r'

/-- JavaScript `String.prototype.trim` over the character list: drop
whitespace from both ends. -/
def trimChars (cs : List Char) : List Char :=
  ((cs.dropWhile isWS).reverse.dropWhile isWS).reverse

/-- A string has content when it contains at least one non-whitespace
character. -/
def hasContent (s : String) : Bool := s.data.any (fun c => !isWS c)

/-- The component state of `HeroSection` (`src/unnamed/part_000` lines
613-617): the two text areas and the loading flag. -/
structure HeroState where
  resume : String
  jobDescription : String
  isLoading : Bool
deriving DecidableEq

/-- Result of one `HeroSection` event-handler run: the final component
state, the toast title shown (if any), and the `onAnalyze` invocation
arguments (if the analysis callback was invoked). -/
structure HeroSubmitResult where
  state : HeroState
  toast : Option String
  analyzed : Option (String × String)
deriving DecidableEq

/-- `HeroSection.handleSubmit` of `src/unnamed/part_000` lines 619-638:
when either trimmed text is empty it shows the "Missing Information" toast
and returns before any state change; otherwise it sets the loading flag,
invokes `onAnalyze(resume, jobDescription)` and clears the loading flag. -/
def handleSubmitHero (st : HeroState) : HeroSubmitResult :=
  if trimChars st.resume.data = [] ∨ trimChars st.jobDescription.data = [] then
    { state := st, toast := some "Missing Information", analyzed := none }
  else
    { state := { st with isLoading := false }
      toast := none
      analyzed := some (st.resume, st.jobDescription) }

/-- A selected file as the upload handler sees it: name, MIME type and
text content. -/
structure JsFile where
  name : String
  mime : String
  content : String
deriving DecidableEq

/-- `HeroSection.handleFileUpload` of `src/unnamed/part_000` lines 640-656:
a selected file of MIME type exactly "text/plain" replaces the resume text;
any other selection (or none) shows the "Invalid File" toast and leaves the
state untouched. -/
def handleFileUploadHero (file : Option JsFile) (st : HeroState) :
    HeroState × Option String :=
  match file with
  | some f =>
    if f.mime = "text/plain" then ({ st with resume := f.content }, none)
    else (st, some "Invalid File")
  | none => (st, some "Invalid File")

theorem round1_nonneg {x : ℚ} (h : 0 ≤ x) : 0 ≤ round1 x := by
  unfold round1
  have hr : (0 : ℤ) ≤ round (10 * x) := by
    rw [round_eq]
    exact Int.floor_nonneg.mpr (by linarith)
  have hq : (0 : ℚ) ≤ ((round (10 * x) : ℤ) : ℚ) := by exact_mod_cast hr
  exact div_nonneg hq (by norm_num)

theorem round1_le_100 {x : ℚ} (h : x ≤ 100) : round1 x ≤ 100 := by
  unfold round1
  have h1 : (10 * x + 1 / 2 : ℚ) ≤ 2001 / 2 := by linarith
  have h2 : ⌊(10 * x + 1 / 2 : ℚ)⌋ ≤ ⌊(2001 / 2 : ℚ)⌋ := Int.floor_le_floor h1
  have h3 : ⌊(2001 / 2 : ℚ)⌋ = 1000 := by norm_num [Int.floor_eq_iff]
  rw [round_eq]
  rw [h3] at h2
  have hq : ((⌊(10 * x + 1 / 2 : ℚ)⌋ : ℤ) : ℚ) ≤ 1000 := by exact_mod_cast h2
  linarith

theorem clampScore_nonneg (x : ℚ) : 0 ≤ clampScore x := le_max_left _ _

theorem clampScore_le_100 (x : ℚ) : clampScore x ≤ 100 :=
  max_le (by norm_num) (min_le_left _ _)

/-- Claim C1: for every combination of the five sub-scores, the overall ATS
score equals the weighted sum of the sub-scores clamped to [0,100] and
rounded to one decimal, and it always lies within [0,100] (so in particular
it does for sub-scores within [0,100]). -/
theorem overallScore_within_range (b : ScoreBreakdown) :
    0 ≤ overallScore b ∧ overallScore b ≤ 100 ∧
      overallScore b = round1 (clampScore (weightedSum docWeights b)) :=
  ⟨round1_nonneg (clampScore_nonneg _), round1_le_100 (clampScore_le_100 _), rfl⟩

/-- Claim C2: the five sub-score weights of the canonical weight table
(WARP.md: formatting, keywords, structure, content quality, readability)
sum to exactly 1. -/
theorem docWeights_sum_one :
    docWeights.formatting + docWeights.keywords + docWeights.sectionStructure +
      docWeights.contentQuality + docWeights.readability = 1 := by
  norm_num [docWeights]

/-- Claim C3: the three core functions are pure Lean functions of their
inputs, so two invocations with identical inputs produce identical results,
including an identical serialized response. -/
theorem coreFunctionsDeterministic (r : ExtractedResume)
    (job : Option JobRequirements) (j : JobRequirements) (b : ScoreBreakdown)
    (iss recs : List String) (m : Option MatchResult) :
    score r job = score r job ∧ jobMatch r j = jobMatch r j ∧
      serializeResponse (aggregate b iss recs m) =
        serializeResponse (aggregate b iss recs m) :=
  ⟨rfl, rfl, rfl⟩

/-- Claim C5: the documentation weight table (formatting 25%, keywords 30%)
and the master-prompt weight table (formatting 20%, keywords 40%) disagree,
the content-quality/impact allocation also differs, and the two induced
overall-score functions produce different scores on the same sub-score
assignment (formatting 100, everything else 0). -/
theorem weightTablesConflict :
    docWeights.formatting = 25 / 100 ∧ promptWeights.formatting = 20 / 100 ∧
      docWeights.keywords = 30 / 100 ∧ promptWeights.keywords = 40 / 100 ∧
      docWeights.formatting ≠ promptWeights.formatting ∧
      docWeights.keywords ≠ promptWeights.keywords ∧
      docWeights.contentQuality ≠ promptWeights.impactMetrics ∧
      overallScore ⟨100, 0, 0, 0, 0⟩ = 25 ∧
      promptOverallScore ⟨0, 100, 0, 0, 0⟩ = 20 ∧
      overallScore ⟨100, 0, 0, 0, 0⟩ ≠ promptOverallScore ⟨0, 100, 0, 0, 0⟩ := by
  have h250 : round (250 : ℚ) = 250 := by
    rw [show (250 : ℚ) = ((250 : ℕ) : ℚ) by norm_num]
    exact round_natCast 250
  have h200 : round (200 : ℚ) = 200 := by
    rw [show (200 : ℚ) = ((200 : ℕ) : ℚ) by norm_num]
    exact round_natCast 200
  have hws : weightedSum docWeights ⟨100, 0, 0, 0, 0⟩ = 25 := by
    norm_num [weightedSum, docWeights]
  have hpws : promptWeightedSum ⟨0, 100, 0, 0, 0⟩ = 20 := by
    norm_num [promptWeightedSum, promptWeights]
  have hc25 : clampScore (25 : ℚ) = 25 := by norm_num [clampScore, min_def, max_def]
  have hc20 : clampScore (20 : ℚ) = 20 := by norm_num [clampScore, min_def, max_def]
  have hr25 : round1 (25 : ℚ) = 25 := by
    unfold round1
    rw [show (10 * (25 : ℚ)) = 250 by norm_num, h250]
    norm_num
  have hr20 : round1 (20 : ℚ) = 20 := by
    unfold round1
    rw [show (10 * (20 : ℚ)) = 200 by norm_num, h200]
    norm_num
  have hdoc : overallScore ⟨100, 0, 0, 0, 0⟩ = 25 := by
    unfold overallScore
    rw [hws, hc25, hr25]
  have hprompt : promptOverallScore ⟨0, 100, 0, 0, 0⟩ = 20 := by
    unfold promptOverallScore
    rw [hpws, hc20, hr20]
  refine ⟨rfl, rfl, rfl, rfl, ?_, ?_, ?_, hdoc, hprompt, ?_⟩
  · norm_num [docWeights, promptWeights]
  · norm_num [docWeights, promptWeights]
  · norm_num [docWeights, promptWeights]
  · rw [hdoc, hprompt]
    norm_num

theorem jvalKeysArr_map_str (l : List String) :
    jvalKeysArr (l.map JVal.str) = [] := by
  induction l with
  | nil => rfl
  | cons h t ih => simp [jvalKeysArr, jvalKeys, ih]

theorem responseKeys_aggregate_none (b : ScoreBreakdown)
    (iss recs : List String) :
    responseKeys (aggregate b iss recs none) =
      ["success", "ats_score", "overall_score", "ats_friendly_rating",
       "score_breakdown", "formatting", "structure", "keywords",
       "content_quality", "readability", "issues_found", "recommendations"] := by
  simp [responseKeys, aggregate, serializeResponse, serializeBreakdown,
    jvalKeysObj, jvalKeys, jvalKeysArr, jvalKeysArr_map_str]

/-- Claim C4: for every score breakdown (and issue/recommendation lists),
aggregating with the match result absent yields a serialized response none
of whose keys, at any nesting depth, is match-related. -/
theorem aggregateNone_no_match_keys (b : ScoreBreakdown)
    (iss recs : List String) :
    matchRelatedKeys.all
      (fun k => !((responseKeys (aggregate b iss recs none)).contains k)) = true := by
  rw [responseKeys_aggregate_none]
  decide

/-- Claim C6: the guarded percentage used by every ratio-shaped sub-score
agrees everywhere with its fault-tracking variant, whose error branch is
therefore unreachable; a zero denominator yields the defined defaults (100
when nothing was required, 0 when something was required), and in
particular the skill-match score of a job with zero required skills is
100. -/
theorem guardedSubscoreTotal (d n : ℚ) (req : Bool) (rs : List String) :
    guardedPctE d n req = Except.ok (guardedPct d n req) ∧
      guardedPct 0 n false = 100 ∧
      guardedPct 0 n true = 0 ∧
      skillMatchScore rs [] = 100 := by
  refine ⟨?_, ?_, ?_, ?_⟩
  · unfold guardedPctE guardedPct checkedDiv
    by_cases h : d = 0 <;> simp [h]
  · simp [guardedPct]
  · simp [guardedPct]
  · simp [skillMatchScore, guardedPct]

theorem reqWeight_pos (s : SkillReq) : 0 < reqWeight s := by
  unfold reqWeight
  split <;> norm_num

theorem sum_reqWeight_nonneg (l : List SkillReq) : 0 ≤ (l.map reqWeight).sum := by
  induction l with
  | nil => simp
  | cons a t ih =>
    rw [List.map_cons, List.sum_cons]
    exact add_nonneg (reqWeight_pos a).le ih

theorem sum_reqWeight_pos {l : List SkillReq} (h : l ≠ []) :
    0 < (l.map reqWeight).sum := by
  cases l with
  | nil => exact absurd rfl h
  | cons a t =>
    rw [List.map_cons, List.sum_cons]
    exact add_pos_of_pos_of_nonneg (reqWeight_pos a) (sum_reqWeight_nonneg t)

/-- Claim C7 is refuted as stated: on a resume holding exactly the job's
must-have skill, with one nice-to-have skill missing, every must-have skill
is present in the resume yet the weighted skill-match score is 60, not
100. -/
theorem skillMatch_mustSubset_counterexample :
    ((([⟨"python", "programming", true⟩, ⟨"docker", "cloud", false⟩] :
          List SkillReq).filter (fun s => s.mustHave)).all
        (fun s => (["python"] : List String).contains s.name)) = true ∧
      skillMatchScore ["python"]
          [⟨"python", "programming", true⟩, ⟨"docker", "cloud", false⟩] = 60 ∧
      skillMatchScore ["python"]
          [⟨"python", "programming", true⟩, ⟨"docker", "cloud", false⟩] ≠ 100 := by
  refine ⟨by decide, ?_, ?_⟩
  · simp [skillMatchScore, guardedPct, reqWeight, List.filter]
    norm_num
  · simp [skillMatchScore, guardedPct, reqWeight, List.filter]
    norm_num

/-- Claim C7 (amended): when the job's entire required-skill set (must-have
and nice-to-have together) is contained in the resume's skill set the
skill-match score is 100, and when the job's skill set is nonempty and
disjoint from the resume's skill set the skill-match score is 0. -/
theorem skillMatch_full_and_disjoint (rs : List String) (js : List SkillReq) :
    (js.all (fun s => rs.contains s.name) = true → skillMatchScore rs js = 100) ∧
      (js ≠ [] → js.all (fun s => !rs.contains s.name) = true →
        skillMatchScore rs js = 0) := by
  constructor
  · intro h
    unfold skillMatchScore
    have hf : js.filter (fun s => rs.contains s.name) = js :=
      List.filter_eq_self.mpr (List.all_eq_true.mp h)
    rw [hf]
    by_cases hjs : js = []
    · subst hjs
      simp [guardedPct]
    · have hpos := sum_reqWeight_pos hjs
      unfold guardedPct
      rw [if_neg hpos.ne']
      rw [div_self hpos.ne', one_mul]
  · intro hne hdis
    unfold skillMatchScore
    have hf : js.filter (fun s => rs.contains s.name) = [] := by
      apply List.filter_eq_nil_iff.mpr
      intro a ha
      have hcontains := List.all_eq_true.mp hdis a ha
      simp only [Bool.not_eq_true'] at hcontains
      simpa using hcontains
    rw [hf]
    have hpos := sum_reqWeight_pos hne
    unfold guardedPct
    rw [if_neg hpos.ne']
    simp

/-- Witness for the amended claim C7: on the spec's own example skills the
fully-covered job scores 100 and a disjoint nonempty job scores 0. -/
theorem skillMatch_full_and_disjoint_witness :
    skillMatchScore ["python", "docker"]
        [⟨"python", "programming", true⟩, ⟨"docker", "cloud", false⟩] = 100 ∧
      skillMatchScore ["java"] [⟨"python", "programming", true⟩] = 0 :=
  ⟨(skillMatch_full_and_disjoint ["python", "docker"]
      [⟨"python", "programming", true⟩, ⟨"docker", "cloud", false⟩]).1 (by decide),
   (skillMatch_full_and_disjoint ["java"] [⟨"python", "programming", true⟩]).2
      (by decide) (by decide)⟩

/-- Claim C8 is refuted as stated: the canonical response field-name list of
the `outputSchema` of `src/Pages/Home.tsx` is neither uniformly snake_case
nor uniformly camelCase, since it holds both `ats_score` (not camelCase)
and `executiveSummary` (not snake_case). -/
theorem outputSchema_naming_counterexample :
    uniformNaming outputSchemaFieldNames = false ∧
      "ats_score" ∈ outputSchemaFieldNames ∧ isCamelName "ats_score" = false ∧
      "executiveSummary" ∈ outputSchemaFieldNames ∧
      isSnakeName "executiveSummary" = false := by
  decide

/-- Claim C8 (amended): the serialized response mixes the two conventions
along a fixed line: exactly the five `meta` sub-fields carry underscores
(snake_case) while exactly the eleven remaining compound names carry
uppercase letters (camelCase). -/
theorem outputSchema_naming_mixed :
    outputSchemaFieldNames.filter (fun n => !isCamelName n) =
        ["ats_score", "must_have_keywords", "nice_to_have", "length_ok",
         "reading_level"] ∧
      outputSchemaFieldNames.filter (fun n => !isSnakeName n) =
        ["executiveSummary", "keywordMatrix", "jdSkill", "presentInResume",
         "evidenceSnippet", "redFlags", "resumeAtsPlain", "resumeMarkdown",
         "bulletUpgrades", "coverLetter", "linkedinProfile"] := by
  decide

theorem trimChars_eq_nil_iff (cs : List Char) :
    trimChars cs = [] ↔ (cs.any fun c => !isWS c) = false := by
  unfold trimChars
  rw [List.reverse_eq_nil_iff, List.dropWhile_eq_nil_iff, List.any_eq_false]
  constructor
  · intro h c hc
    have hsplit := List.takeWhile_append_dropWhile isWS cs
    rw [← hsplit] at hc
    rcases List.mem_append.mp hc with h1 | h2
    · simp [List.mem_takeWhile_imp h1]
    · have := h c (List.mem_reverse.mpr h2)
      simp [this]
  · intro h c hc
    have hmem : c ∈ cs.dropWhile isWS := List.mem_reverse.mp hc
    have hcs : c ∈ cs := (List.dropWhile_sublist isWS).mem hmem
    have := h c hcs
    simpa using this

/-- Claim C9: the HeroSection submit handler invokes the analysis callback
exactly when both the resume and the job description contain at least one
non-whitespace character; otherwise it shows the "Missing Information"
toast, performs no analysis, and leaves the component state unchanged. -/
theorem heroSubmit_gates_on_content (st : HeroState) :
    handleSubmitHero st =
      (if hasContent st.resume && hasContent st.jobDescription then
        { state := { st with isLoading := false }
          toast := none
          analyzed := some (st.resume, st.jobDescription) }
      else
        { state := st, toast := some "Missing Information", analyzed := none }) := by
  unfold handleSubmitHero
  cases hcr : hasContent st.resume with
  | false =>
    have hnil : trimChars st.resume.data = [] := by
      rw [trimChars_eq_nil_iff]
      unfold hasContent at hcr
      exact hcr
    rw [if_pos (Or.inl hnil)]
    simp
  | true =>
    have hrne : trimChars st.resume.data ≠ [] := by
      rw [Ne, trimChars_eq_nil_iff]
      unfold hasContent at hcr
      simp [hcr]
    cases hcj : hasContent st.jobDescription with
    | false =>
      have hnil : trimChars st.jobDescription.data = [] := by
        rw [trimChars_eq_nil_iff]
        unfold hasContent at hcj
        exact hcj
      rw [if_pos (Or.inr hnil)]
      simp
    | true =>
      have hjne : trimChars st.jobDescription.data ≠ [] := by
        rw [Ne, trimChars_eq_nil_iff]
        unfold hasContent at hcj
        simp [hcj]
      rw [if_neg (fun h => h.elim hrne hjne)]
      simp

/-- Claim C10: the HeroSection file-upload handler replaces the resume text
exactly for a selected file of MIME type "text/plain"; any other selection
(wrong type or no file) produces the "Invalid File" toast and leaves the
state untouched. -/
theorem heroUpload_requires_plainText (file : Option JsFile) (st : HeroState) :
    (∀ f, file = some f → f.mime = "text/plain" →
        handleFileUploadHero file st = ({ st with resume := f.content }, none)) ∧
      ((∀ f, file = some f → f.mime ≠ "text/plain") →
        handleFileUploadHero file st = (st, some "Invalid File")) := by
  constructor
  · intro f hf hm
    subst hf
    simp only [handleFileUploadHero]
    rw [if_pos hm]
  · intro h
    cases file with
    | none => rfl
    | some f =>
      simp only [handleFileUploadHero]
      rw [if_neg (h f rfl)]

/-- Witness for claim C10: a plain-text file replaces the resume text, a
PDF is rejected with the "Invalid File" toast and an unchanged state. -/
theorem heroUpload_requires_plainText_witness :
    handleFileUploadHero (some ⟨"resume.txt", "text/plain", "RESUME BODY"⟩)
        ⟨"old resume", "the jd", false⟩ =
      (⟨"RESUME BODY", "the jd", false⟩, none) ∧
      handleFileUploadHero (some ⟨"resume.pdf", "application/pdf", "x"⟩)
          ⟨"old resume", "the jd", false⟩ =
        (⟨"old resume", "the jd", false⟩, some "Invalid File") :=
  ⟨(heroUpload_requires_plainText
      (some ⟨"resume.txt", "text/plain", "RESUME BODY"⟩)
      ⟨"old resume", "the jd", false⟩).1
      ⟨"resume.txt", "text/plain", "RESUME BODY"⟩ rfl rfl,
   (heroUpload_requires_plainText
      (some ⟨"resume.pdf", "application/pdf", "x"⟩)
      ⟨"old resume", "the jd", false⟩).2
      (fun f hf => by cases hf; decide)⟩

end ResumeCheck
